import Mathlib

/-!
Verification of the `smartship.carriers.posti` module (src/smartship/carriers/posti.py).

The module is embedded shallowly: Python values are modelled by the inductive
`PyVal` (with Python truthiness as `truthy` and Python `is None` as `isNone`),
fallible operations return `Except Err`, and the outgoing HTTP transport of
`get_locations` is an oracle function from the query to a response.
-/

/-- A Python value, as far as this module inspects one: `None`, booleans,
integers, strings, lists and (string-keyed, insertion-ordered) dicts.
Float coordinates are never computed with, only passed through, so numeric
values are carried opaquely. -/
inductive PyVal where
  | pnone : PyVal
  | pbool (b : Bool) : PyVal
  | pint (n : Int) : PyVal
  | pstr (s : String) : PyVal
  | plist (xs : List PyVal) : PyVal
  | pdict (kvs : List (String × PyVal)) : PyVal

/-- Python truthiness: `None`, `False`, `0`, `""`, `[]`, `{}` are falsy. -/
def truthy : PyVal → Bool
  | .pnone => false
  | .pbool b => b
  | .pint n => n != 0
  | .pstr s => s != ""
  | .plist xs => !xs.isEmpty
  | .pdict kvs => !kvs.isEmpty

theorem truthy_pnone : truthy PyVal.pnone = false := rfl

/-- Python `v is None`. -/
def isNone : PyVal → Bool
  | .pnone => true
  | _ => false

/-- `k in v` for a dict `v` (false on non-dicts). -/
def hasKey (v : PyVal) (k : String) : Bool :=
  match v with
  | .pdict kvs => kvs.any (fun kv => kv.1 == k)
  | _ => false

/-- The errors the module can raise: `ValueError` from service-id validation,
a schema validation error from the object collaborator, `IndexError` from
sequence indexing, `KeyError` from dict lookup, `TypeError` from indexing a
non-sequence, and the transport error raised on a non-2xx HTTP status. -/
inductive Err where
  | valueError : Err
  | validationError : Err
  | indexError : Err
  | keyError : Err
  | typeError : Err
  | httpError (status : Nat) : Err
deriving DecidableEq, Repr

/-- Python `v[i]` for a list `v`: `IndexError` when out of range, `TypeError`
when `v` is not a sequence. -/
def pyIndex (v : PyVal) (i : Nat) : Except Err PyVal :=
  match v with
  | .plist xs =>
    match xs.get? i with
    | some x => .ok x
    | none => .error .indexError
  | _ => .error .typeError

/-- Python `v[k]` for a dict `v`: `KeyError` when the key is missing. -/
def pyGetItem (v : PyVal) (k : String) : Except Err PyVal :=
  match v with
  | .pdict kvs =>
    match kvs.lookup k with
    | some x => .ok x
    | none => .error .keyError
  | _ => .error .typeError

/-! ## Module constants (posti.py lines 13-51) -/

def CARRIER_CODE : String := "POSTI"

/-- The service registry (posti.py lines 16-32), as an insertion-ordered
association list, matching the Python dict literal. -/
def SERVICES : List (String × String) := [
  ("PO2017", "Posti - EMS"),
  ("PO2017D", "Posti - EMS DocPack"),
  ("ITKY14I", "Posti - Express Business Day pallet (Ulkomaa)"),
  ("IT14I", "Posti - Express Business Day parcel (Ulkomaa)"),
  ("PO2102", "Posti - Express-paketti"),
  ("PO2144", "Posti - Express-rahti"),
  ("PO2104", "Posti - Kotipaketti"),
  ("PO5041", "Posti - Näytelähetys"),
  ("PO2108", "Posti - Palautus"),
  ("PO2711", "Posti - Parcel Connect"),
  ("PO2718", "Posti - Parcel Return Connect"),
  ("PO2461", "Posti - Pikkupaketti"),
  ("PO2103", "Posti - Postipaketti"),
  ("ITPR", "Posti - Priority Parcel"),
  ("PO2106", "Posti - SmartPOST Viro")]

def SERVICES_keys : List String := SERVICES.map Prod.fst

def NATIONAL_SERVICE_KEYS : List String :=
  ["ITPR", "PO2102", "PO2103", "PO2104", "PO2108", "PO2144", "PO2461", "PO5041"]

def NATIONAL_SERVICES : List (String × String) :=
  SERVICES.filter (fun kv => NATIONAL_SERVICE_KEYS.contains kv.1)

def LOCATION_SERVICE_API_ENDPOINT : String := "https://locationservice.posti.com/location"

/-! ## Schema variants (posti.py lines 54-61)

The base `Receiver`, `Sender` and `Parcels` schemas live in `smartship/objects.py`,
which is not under src/; they are modelled from the spec.  The two variant
classes `MobileReceiver` and `WeightedParcels` ARE in src/ and are embedded as
the stated edits of the base schemas. -/

/-- Modelled from the spec: the base receiver schema of `smartship.objects.Receiver`
(file not under src/).  Per the spec, a receiver requires one of: full
postal-address fields, or a short-hand `quickId`.  Only the shape
(a `oneOf` list of required-field sets, full address at position 0) matters
to the claims; the exact postal field names follow the spec example. -/
def Receiver_schema_oneOf : List (List String) :=
  [["name", "city", "country", "address1", "zipcode"], ["quickId"]]

/-- Modelled from the spec: the sender schema of `smartship.objects.Sender`
(file not under src/) follows the same pattern as the receiver: `quickId` or
enough address information. -/
def Sender_schema_oneOf : List (List String) :=
  [["name", "city", "country", "address1", "zipcode"], ["quickId"]]

/-- Modelled from the spec: the per-item required fields of
`smartship.objects.Parcels` (file not under src/): each parcel minimally
carries a copy count. -/
def Parcels_schema_items_required : List String := ["copies"]

/-- `MobileReceiver` (posti.py lines 54-56): the receiver schema with
`oneOf[0]` replaced by the required set `["name", "city", "country", "mobile"]`. -/
def MobileReceiver_schema_oneOf : List (List String) :=
  Receiver_schema_oneOf.set 0 ["name", "city", "country", "mobile"]

/-- `WeightedParcels` (posti.py lines 59-61): the parcels schema with
`"weight"` appended to the per-item required fields. -/
def WeightedParcels_schema_items_required : List String :=
  Parcels_schema_items_required ++ ["weight"]

/-- A dict satisfies a required-field set when it has every listed key. -/
def satisfiesRequired (required : List String) (v : PyVal) : Bool :=
  match v with
  | .pdict _ => required.all (fun k => hasKey v k)
  | _ => false

/-- Modelled from the spec: the schema collaborator accepts construction data
that satisfies at least one of the accepted required-field sets. -/
def satisfiesOneOf (oneOf : List (List String)) (v : PyVal) : Bool :=
  oneOf.any (fun req => satisfiesRequired req v)

/-- The receiver class selected by the shipment builder. -/
inductive ReceiverClass where
  | Receiver : ReceiverClass
  | MobileReceiver : ReceiverClass
deriving DecidableEq, Repr

/-- The parcels class selected by the shipment builder. -/
inductive ParcelsClass where
  | Parcels : ParcelsClass
  | WeightedParcels : ParcelsClass
deriving DecidableEq, Repr

def receiver_schema_oneOf_of : ReceiverClass → List (List String)
  | .Receiver => Receiver_schema_oneOf
  | .MobileReceiver => MobileReceiver_schema_oneOf

def parcels_items_required_of : ParcelsClass → List String
  | .Parcels => Parcels_schema_items_required
  | .WeightedParcels => WeightedParcels_schema_items_required

/-- Modelled from the spec: constructing a receiver object validates the data
against the required-field sets of the selected class, raising a validation
error otherwise (`smartship/objects.py` not under src/). -/
def mkReceiver (cls : ReceiverClass) (v : PyVal) : Except Err PyVal :=
  if satisfiesOneOf (receiver_schema_oneOf_of cls) v then .ok v
  else .error .validationError

/-- Modelled from the spec: constructing a sender object validates the data
against the sender schema (`smartship/objects.py` not under src/). -/
def mkSender (v : PyVal) : Except Err PyVal :=
  if satisfiesOneOf Sender_schema_oneOf v then .ok v
  else .error .validationError

/-- Modelled from the spec: constructing a parcels object validates that the
data is a list whose every item has the required per-item fields of the
selected class (`smartship/objects.py` not under src/). -/
def mkParcels (cls : ParcelsClass) (v : PyVal) : Except Err PyVal :=
  match v with
  | .plist xs =>
    if xs.all (satisfiesRequired (parcels_items_required_of cls)) then .ok v
    else .error .validationError
  | _ => .error .validationError

/-! ## Shipment builder (posti.py lines 64-172) -/

/-- The service-selection value built by `_build_service`: the service id,
with `addons` attached only when truthy. -/
structure ServiceVal where
  id : String
  addons : Option PyVal

/-- The assembled shipment request (`Shipment(**kwargs)`, posti.py lines 130-146).
The receiver and parcels carry the class selected for them; optional fields
are `none` exactly when the corresponding `kwargs` entry was not set. -/
structure ShipmentVal where
  sender : PyVal
  senderPartners : PyVal
  receiverCls : ReceiverClass
  receiver : PyVal
  parcelsCls : ParcelsClass
  parcels : PyVal
  service : ServiceVal
  agent : Option PyVal
  orderNo : Option PyVal
  senderReference : Option PyVal
  pdfConfig : Option PyVal

/-- posti.py lines 149-153. -/
def _build_service (addons : PyVal) (service_id : String) : ServiceVal :=
  { id := service_id
    addons := if truthy addons then some addons else none }

/-- posti.py lines 156-158: raises `ValueError("Invalid service_id.")` when the
id is not a key of `SERVICES`. -/
def _validate_create_shipment (service_id : String) : Except Err Unit :=
  if SERVICES_keys.contains service_id then .ok ()
  else .error .valueError

/-- posti.py lines 161-166. -/
def _infer_receiver_class (service_id : String) (agent : PyVal) : ReceiverClass :=
  if service_id = "PO2104" then .MobileReceiver
  else if service_id = "PO2103" ∧ truthy agent then .MobileReceiver
  else .Receiver

/-- posti.py lines 169-172. -/
def _infer_parcels_class (service_id : String) : ParcelsClass :=
  if service_id = "PO5041" then .WeightedParcels
  else .Parcels

/-- posti.py lines 64-146: validate the service id, select the receiver and
parcels classes, construct the sub-values in the evaluation order of the
`kwargs` literal (sender, senderPartners, receiver, parcels, service), add
each optional field only when its argument is truthy, and assemble the
shipment.  Omitted optional arguments default to `None` (`.pnone`).  The
local bindings of the two selected classes are inlined (they are pure). -/
def create_shipment (custno : String) (service_id : String)
    (receiver sender parcels : PyVal)
    (agent order_no sender_reference pdf_config addons : PyVal) :
    Except Err ShipmentVal :=
  match _validate_create_shipment service_id with
  | .error e => .error e
  | .ok _ =>
    match mkSender sender with
    | .error e => .error e
    | .ok sender_obj =>
      match mkReceiver (_infer_receiver_class service_id agent) receiver with
      | .error e => .error e
      | .ok receiver_obj =>
        match mkParcels (_infer_parcels_class service_id) parcels with
        | .error e => .error e
        | .ok parcels_obj =>
          .ok {
            sender := sender_obj
            senderPartners :=
              .plist [.pdict [("id", .pstr CARRIER_CODE), ("custNo", .pstr custno)]]
            receiverCls := _infer_receiver_class service_id agent
            receiver := receiver_obj
            parcelsCls := _infer_parcels_class service_id
            parcels := parcels_obj
            service := _build_service addons service_id
            agent := if truthy agent then some agent else none
            orderNo := if truthy order_no then some order_no else none
            senderReference := if truthy sender_reference then some sender_reference else none
            pdfConfig := if truthy pdf_config then some pdf_config else none }

/-! ## Location query (posti.py lines 175-243) -/

/-- The arguments of `get_locations`, every one defaulting to `None`. -/
structure GetLocationsArgs where
  country_code : PyVal := .pnone
  top : PyVal := .pnone
  types : PyVal := .pnone
  lattitude : PyVal := .pnone
  longitude : PyVal := .pnone
  distance : PyVal := .pnone
  bounding_box : PyVal := .pnone
  zipcode : PyVal := .pnone
  location_zipcode : PyVal := .pnone
  strict_zip_code : PyVal := .pnone
  city : PyVal := .pnone
  municipality : PyVal := .pnone
  pup_code : PyVal := .pnone
  partner_type : PyVal := .pnone

/-- A query-parameter mapping, insertion-ordered like a Python dict. -/
abbrev Query := List (String × PyVal)

/-- The `params` dict literal of `get_locations` (posti.py lines 215-229),
including the `strictZipCode` special case on line 224. -/
def base_params (args : GetLocationsArgs) : Query := [
  ("countryCode", args.country_code),
  ("top", args.top),
  ("types", args.types),
  ("lat", args.lattitude),
  ("lng", args.longitude),
  ("distance", args.distance),
  ("zipCode", args.zipcode),
  ("locationZipCode", args.location_zipcode),
  ("strictZipCode", if truthy args.strict_zip_code then .pstr "true" else .pnone),
  ("city", args.city),
  ("municipality", args.municipality),
  ("pupCode", args.pup_code),
  ("partnerType", args.partner_type)]

/-- The bounding-box expansion (posti.py lines 231-235): when `bounding_box`
is not `None`, index its first four elements (left to right, so the first
out-of-range index raises) and append the four discrete parameters. -/
def bb_params (bounding_box : PyVal) : Except Err Query :=
  if isNone bounding_box then .ok []
  else
    match pyIndex bounding_box 0 with
    | .error e => .error e
    | .ok a =>
      match pyIndex bounding_box 1 with
      | .error e => .error e
      | .ok b =>
        match pyIndex bounding_box 2 with
        | .error e => .error e
        | .ok c =>
          match pyIndex bounding_box 3 with
          | .error e => .error e
          | .ok d =>
            .ok [("topLeftLat", a), ("topLeftLng", b),
                 ("bottomRightLat", c), ("bottomRightLng", d)]

/-- The parameter-pruning loop (posti.py lines 237-239): pop every entry whose
value is `None`. -/
def dropNone (l : Query) : Query :=
  l.filter (fun kv => !isNone kv.2)

/-- The full query sent by `get_locations`: the `params` dict with the
bounding-box expansion appended, pruned of `None` values. -/
def build_query (args : GetLocationsArgs) : Except Err Query :=
  match bb_params args.bounding_box with
  | .error e => .error e
  | .ok bb => .ok (dropNone (base_params args ++ bb))

/-- An HTTP response: status code and parsed JSON body. -/
structure HttpResponse where
  status : Nat
  body : PyVal

/-- Modelled from the spec: the HTTP transport collaborator (the external
`requests` library) exposes a status check that fails on every non-2xx
response, propagating a transport error carrying the status (posti.py
line 242, `response.raise_for_status()`). -/
def raise_for_status (r : HttpResponse) : Except Err Unit :=
  if 200 ≤ r.status ∧ r.status < 300 then .ok ()
  else .error (.httpError r.status)

/-- The location query result: the `locations` field of the response body,
wrapped verbatim (the `Locations` object of `smartship/objects.py` imposes no
further modelling per the spec). -/
structure LocationsVal where
  locations : PyVal

/-- posti.py lines 175-243: build the query, issue one GET against the fixed
endpoint (the transport is the oracle `http`), fail on non-2xx, extract the
`locations` field of the JSON body and wrap it. -/
def get_locations (args : GetLocationsArgs)
    (http : String → Query → HttpResponse) : Except Err LocationsVal :=
  match build_query args with
  | .error e => .error e
  | .ok params =>
    let response := http LOCATION_SERVICE_API_ENDPOINT params
    match raise_for_status response with
    | .error e => .error e
    | .ok _ =>
      match pyGetItem response.body "locations" with
      | .error e => .error e
      | .ok locs => .ok { locations := locs }

/-! ## Association-list lemmas -/

theorem lookup_eq_none_of_not_mem_keys {l : Query} {k : String}
    (h : k ∉ l.map Prod.fst) : l.lookup k = none := by
  induction l with
  | nil => rfl
  | cons hd tl ih =>
    obtain ⟨a, b⟩ := hd
    simp only [List.map_cons, List.mem_cons, not_or] at h
    have hne : (k == a) = false := beq_eq_false_iff_ne.mpr h.1
    simp only [List.lookup, hne]
    exact ih h.2

theorem not_mem_of_lookup_eq_none {l : Query} {k : String}
    (h : l.lookup k = none) (v : PyVal) : (k, v) ∉ l := by
  induction l with
  | nil => simp
  | cons hd tl ih =>
    obtain ⟨a, b⟩ := hd
    simp only [List.lookup] at h
    cases hab : (k == a) with
    | true => simp [hab] at h
    | false =>
      simp only [hab] at h
      simp only [List.mem_cons, not_or]
      refine ⟨fun he => ?_, ih h⟩
      have : k = a := congrArg Prod.fst he
      rw [this] at hab
      simp at hab

theorem keys_dropNone_subset (l : Query) :
    (dropNone l).map Prod.fst ⊆ l.map Prod.fst :=
  ((List.filter_sublist l).map Prod.fst).subset

theorem lookup_dropNone {l : Query} (k : String)
    (h : (l.map Prod.fst).Nodup) :
    (dropNone l).lookup k =
      (l.lookup k).bind (fun v => if isNone v then none else some v) := by
  induction l with
  | nil => rfl
  | cons hd tl ih =>
    obtain ⟨a, b⟩ := hd
    simp only [List.map_cons, List.nodup_cons] at h
    obtain ⟨ha, htl⟩ := h
    by_cases hk : k = a
    · subst hk
      cases hb : isNone b with
      | false =>
        simp only [dropNone, List.filter_cons, hb, Bool.not_false, if_pos]
        simp [List.lookup, hb]
      | true =>
        simp only [dropNone, List.filter_cons, hb, Bool.not_true]
        simp only [Bool.false_eq_true, if_false]
        have hnk : k ∉ (dropNone tl).map Prod.fst :=
          fun hm => ha (keys_dropNone_subset tl hm)
        rw [show (List.filter (fun kv => !isNone kv.2) tl) = dropNone tl from rfl]
        rw [lookup_eq_none_of_not_mem_keys hnk]
        simp [List.lookup, hb]
    · have hne : (k == a) = false := beq_eq_false_iff_ne.mpr hk
      cases hb : isNone b with
      | false =>
        simp only [dropNone, List.filter_cons, hb, Bool.not_false, if_pos]
        simp only [List.lookup, hne]
        exact ih htl
      | true =>
        simp only [dropNone, List.filter_cons, hb, Bool.not_true]
        simp only [Bool.false_eq_true, if_false]
        simp only [List.lookup, hne]
        exact ih htl

/-- Any successfully built shipment carries the inferred receiver and parcels
classes, the service built by `_build_service`, and each optional field
exactly when its argument is truthy. -/
theorem create_shipment_ok_fields
    {custno service_id : String}
    {receiver sender parcels agent order_no sender_reference pdf_config addons : PyVal}
    {sh : ShipmentVal}
    (hok : create_shipment custno service_id receiver sender parcels agent order_no
      sender_reference pdf_config addons = .ok sh) :
    sh.receiverCls = _infer_receiver_class service_id agent ∧
    sh.parcelsCls = _infer_parcels_class service_id ∧
    sh.service = _build_service addons service_id ∧
    sh.agent = (if truthy agent then some agent else none) ∧
    sh.orderNo = (if truthy order_no then some order_no else none) ∧
    sh.senderReference = (if truthy sender_reference then some sender_reference else none) ∧
    sh.pdfConfig = (if truthy pdf_config then some pdf_config else none) := by
  unfold create_shipment at hok
  cases hv : _validate_create_shipment service_id with
  | error e => rw [hv] at hok; exact Except.noConfusion hok
  | ok u =>
    rw [hv] at hok
    cases hs : mkSender sender with
    | error e => rw [hs] at hok; exact Except.noConfusion hok
    | ok sender_obj =>
      rw [hs] at hok
      cases hr : mkReceiver (_infer_receiver_class service_id agent) receiver with
      | error e => rw [hr] at hok; exact Except.noConfusion hok
      | ok receiver_obj =>
        rw [hr] at hok
        cases hp : mkParcels (_infer_parcels_class service_id) parcels with
        | error e => rw [hp] at hok; exact Except.noConfusion hok
        | ok parcels_obj =>
          rw [hp] at hok
          cases hok
          exact ⟨rfl, rfl, rfl, rfl, rfl, rfl, rfl⟩

theorem satisfiesRequired_weighted_hasKey {e : PyVal}
    (h : satisfiesRequired WeightedParcels_schema_items_required e = true) :
    hasKey e "weight" = true := by
  cases e with
  | pdict kvs =>
    simp only [satisfiesRequired, WeightedParcels_schema_items_required,
      Parcels_schema_items_required, List.singleton_append, List.all_cons,
      List.all_nil, Bool.and_eq_true, Bool.and_true] at h
    exact h.2
  | pnone => exact absurd h (by simp [satisfiesRequired])
  | pbool b => exact absurd h (by simp [satisfiesRequired])
  | pint n => exact absurd h (by simp [satisfiesRequired])
  | pstr s => exact absurd h (by simp [satisfiesRequired])
  | plist xs => exact absurd h (by simp [satisfiesRequired])

theorem lookup_append_of_some {l1 l2 : Query} {k : String} {v : PyVal}
    (h : l1.lookup k = some v) : (l1 ++ l2).lookup k = some v := by
  induction l1 with
  | nil => simp [List.lookup] at h
  | cons hd tl ih =>
    obtain ⟨a, b⟩ := hd
    simp only [List.cons_append, List.lookup] at h ⊢
    cases hab : (k == a) with
    | true => simpa [hab] using h
    | false =>
      simp only [hab] at h ⊢
      exact ih h

/-! ## Example inputs used by the witnesses -/

def exReceiver : PyVal := .pdict [("quickId", .pstr "2")]

def exSender : PyVal := .pdict [("quickId", .pstr "1")]

def exParcels : PyVal := .plist [.pdict [("copies", .pint 1)]]

def exAgent : PyVal := .pdict [("quickId", .pstr "3")]

/-- The shipment produced by the simplest successful call used in witnesses. -/
def exShipment : ShipmentVal :=
  { sender := exSender
    senderPartners := .plist [.pdict [("id", .pstr "POSTI"), ("custNo", .pstr "12345")]]
    receiverCls := .Receiver
    receiver := exReceiver
    parcelsCls := .Parcels
    parcels := exParcels
    service := { id := "PO2102", addons := none }
    agent := none
    orderNo := none
    senderReference := none
    pdfConfig := none }

/-- Like `exShipment` but for service PO2103. -/
def exShipment2103 : ShipmentVal :=
  { exShipment with service := { id := "PO2103", addons := none } }

/-- A successful `bb_params` is either empty (no bounding box) or the four
discrete bounding-box parameters. -/
theorem bb_params_ok_shape {v : PyVal} {l : Query} (h : bb_params v = .ok l) :
    l = [] ∨ ∃ a b c d, l = [("topLeftLat", a), ("topLeftLng", b),
      ("bottomRightLat", c), ("bottomRightLng", d)] := by
  unfold bb_params at h
  by_cases hn : isNone v = true
  · simp only [hn, if_pos] at h
    cases h
    exact Or.inl rfl
  · simp only [Bool.not_eq_true] at hn
    simp only [hn, Bool.false_eq_true, if_false] at h
    cases h0 : pyIndex v 0 with
    | error e => rw [h0] at h; exact Except.noConfusion h
    | ok a =>
      cases h1 : pyIndex v 1 with
      | error e => rw [h0, h1] at h; exact Except.noConfusion h
      | ok b =>
        cases h2 : pyIndex v 2 with
        | error e => rw [h0, h1, h2] at h; exact Except.noConfusion h
        | ok c =>
          cases h3 : pyIndex v 3 with
          | error e => rw [h0, h1, h2, h3] at h; exact Except.noConfusion h
          | ok d =>
            rw [h0, h1, h2, h3] at h
            cases h
            exact Or.inr ⟨a, b, c, d, rfl⟩

theorem keys_base_params (args : GetLocationsArgs) :
    (base_params args).map Prod.fst =
      ["countryCode", "top", "types", "lat", "lng", "distance", "zipCode",
       "locationZipCode", "strictZipCode", "city", "municipality", "pupCode",
       "partnerType"] := rfl

/-- The keys of the full (unpruned) parameter list are pairwise distinct. -/
theorem keys_append_nodup (args : GetLocationsArgs) {bb : Query}
    (h : bb_params args.bounding_box = .ok bb) :
    ((base_params args ++ bb).map Prod.fst).Nodup := by
  rcases bb_params_ok_shape h with h0 | ⟨a, b, c, d, h4⟩
  · subst h0
    rw [List.append_nil, keys_base_params]
    decide
  · subst h4
    rw [List.map_append, keys_base_params]
    simp only [List.map_cons, List.map_nil]
    decide

/-- A successful `build_query` is the pruned concatenation of the base
parameters and a bounding-box expansion of known shape. -/
theorem build_query_ok_cases {args : GetLocationsArgs} {q : Query}
    (hq : build_query args = .ok q) :
    ∃ bb, bb_params args.bounding_box = .ok bb ∧
      q = dropNone (base_params args ++ bb) ∧
      (bb = [] ∨ ∃ a b c d, bb = [("topLeftLat", a), ("topLeftLng", b),
        ("bottomRightLat", c), ("bottomRightLng", d)]) := by
  unfold build_query at hq
  cases hbb : bb_params args.bounding_box with
  | error e => rw [hbb] at hq; exact Except.noConfusion hq
  | ok bb =>
    rw [hbb] at hq
    cases hq
    exact ⟨bb, rfl, rfl, bb_params_ok_shape hbb⟩

/-- Looking a base-parameter name up in the built query gives its value when
that value is not `None`, and nothing when it is. -/
theorem build_query_lookup {args : GetLocationsArgs} {q : Query}
    (hq : build_query args = .ok q) {k : String} {v : PyVal}
    (hbase : (base_params args).lookup k = some v) :
    q.lookup k = if isNone v then none else some v := by
  obtain ⟨bb, hbb, hq', _⟩ := build_query_ok_cases hq
  subst hq'
  rw [lookup_dropNone k (keys_append_nodup args hbb)]
  rw [lookup_append_of_some hbase]
  rfl

/-! ## Claims -/

/-- C1: for every call to `create_shipment` with a registered service code,
the mobile-capable receiver variant is selected exactly when the code is
PO2104, or when the code is PO2103 and a truthy agent was supplied; otherwise
the base receiver shape is selected, and a successfully built shipment
carries the selected class. -/
theorem C1_mobile_receiver_selection (service_id : String) (agent : PyVal)
    (h : service_id ∈ SERVICES_keys) :
    (_infer_receiver_class service_id agent = .MobileReceiver ↔
      (service_id = "PO2104" ∨ (service_id = "PO2103" ∧ truthy agent = true)))
    ∧ (∀ custno receiver sender parcels order_no sender_reference pdf_config addons sh,
        create_shipment custno service_id receiver sender parcels agent order_no
          sender_reference pdf_config addons = .ok sh →
        sh.receiverCls = _infer_receiver_class service_id agent) := by
  refine ⟨?_, fun _ _ _ _ _ _ _ _ _ hok => (create_shipment_ok_fields hok).1⟩
  unfold _infer_receiver_class
  split_ifs with h1 h2
  · exact iff_of_true rfl (Or.inl h1)
  · exact iff_of_true rfl (Or.inr h2)
  · exact iff_of_false (by decide) (fun hc => hc.elim h1 h2)

theorem C1_mobile_receiver_selection_witness :
    "PO2103" ∈ SERVICES_keys ∧
    ((_infer_receiver_class "PO2103" exAgent = .MobileReceiver ↔
      ("PO2103" = "PO2104" ∨ ("PO2103" = "PO2103" ∧ truthy exAgent = true)))
    ∧ (∀ custno receiver sender parcels order_no sender_reference pdf_config addons sh,
        create_shipment custno "PO2103" receiver sender parcels exAgent order_no
          sender_reference pdf_config addons = .ok sh →
        sh.receiverCls = _infer_receiver_class "PO2103" exAgent)) :=
  ⟨by decide, C1_mobile_receiver_selection "PO2103" exAgent (by decide)⟩

/-- C2: for every service code outside the registry, `create_shipment`
returns the invalid-argument error, whatever the other arguments are — in
particular no sub-value construction (which could itself fail) happens. -/
theorem C2_unknown_service_rejected (service_id : String)
    (h : SERVICES_keys.contains service_id = false) :
    ∀ custno receiver sender parcels agent order_no sender_reference pdf_config addons,
      create_shipment custno service_id receiver sender parcels agent order_no
        sender_reference pdf_config addons = .error .valueError := by
  intro custno receiver sender parcels agent order_no sender_reference pdf_config addons
  simp only [create_shipment, _validate_create_shipment, h, Bool.false_eq_true, if_false]

theorem C2_unknown_service_rejected_witness :
    SERVICES_keys.contains "XX9999" = false ∧
    create_shipment "12345" "XX9999" PyVal.pnone PyVal.pnone PyVal.pnone
      PyVal.pnone PyVal.pnone PyVal.pnone PyVal.pnone PyVal.pnone
      = .error .valueError :=
  ⟨by decide, C2_unknown_service_rejected "XX9999" (by decide) "12345"
    PyVal.pnone PyVal.pnone PyVal.pnone PyVal.pnone PyVal.pnone PyVal.pnone
    PyVal.pnone PyVal.pnone⟩

/-- C3: for every registered service code, the weighted-parcels variant is
selected exactly for code PO5041; that variant requires a weight key on
every parcel entry; and a successfully built shipment carries the selected
class. -/
theorem C3_weighted_parcels_selection (service_id : String)
    (h : service_id ∈ SERVICES_keys) :
    (_infer_parcels_class service_id = .WeightedParcels ↔ service_id = "PO5041")
    ∧ (∀ xs v, mkParcels .WeightedParcels (.plist xs) = .ok v →
        ∀ e ∈ xs, hasKey e "weight" = true)
    ∧ (∀ custno receiver sender parcels agent order_no sender_reference pdf_config addons sh,
        create_shipment custno service_id receiver sender parcels agent order_no
          sender_reference pdf_config addons = .ok sh →
        sh.parcelsCls = _infer_parcels_class service_id) := by
  refine ⟨?_, ?_, fun _ _ _ _ _ _ _ _ _ _ hok => (create_shipment_ok_fields hok).2.1⟩
  · unfold _infer_parcels_class
    split_ifs with h1
    · exact iff_of_true rfl h1
    · exact iff_of_false (by decide) h1
  · intro xs v hok e he
    by_cases hall : xs.all (satisfiesRequired (parcels_items_required_of .WeightedParcels)) = true
    · exact satisfiesRequired_weighted_hasKey (List.all_eq_true.mp hall e he)
    · exfalso
      simp only [mkParcels] at hok
      rw [if_neg hall] at hok
      exact Except.noConfusion hok

theorem C3_weighted_parcels_selection_witness :
    "PO5041" ∈ SERVICES_keys ∧
    ((_infer_parcels_class "PO5041" = .WeightedParcels ↔ "PO5041" = "PO5041")
    ∧ (∀ xs v, mkParcels .WeightedParcels (.plist xs) = .ok v →
        ∀ e ∈ xs, hasKey e "weight" = true)
    ∧ (∀ custno receiver sender parcels agent order_no sender_reference pdf_config addons sh,
        create_shipment custno "PO5041" receiver sender parcels agent order_no
          sender_reference pdf_config addons = .ok sh →
        sh.parcelsCls = _infer_parcels_class "PO5041")) :=
  ⟨by decide, C3_weighted_parcels_selection "PO5041" (by decide)⟩

/-- C5: every omitted optional argument leaves its field absent from the
shipment, and the service value carries an addons list exactly when the
addons argument is truthy (for a list: non-empty). -/
theorem C5_omitted_optionals_absent (custno service_id : String)
    (receiver sender parcels agent order_no sender_reference pdf_config addons : PyVal)
    (sh : ShipmentVal)
    (hok : create_shipment custno service_id receiver sender parcels agent order_no
      sender_reference pdf_config addons = .ok sh) :
    (agent = .pnone → sh.agent = none)
    ∧ (order_no = .pnone → sh.orderNo = none)
    ∧ (sender_reference = .pnone → sh.senderReference = none)
    ∧ (pdf_config = .pnone → sh.pdfConfig = none)
    ∧ (addons = .pnone → sh.service.addons = none)
    ∧ sh.service.addons = (if truthy addons then some addons else none) := by
  obtain ⟨-, -, hsvc, ha, ho, hs, hp⟩ := create_shipment_ok_fields hok
  refine ⟨fun h => ?_, fun h => ?_, fun h => ?_, fun h => ?_, fun h => ?_, ?_⟩
  · subst h; rw [ha]; rfl
  · subst h; rw [ho]; rfl
  · subst h; rw [hs]; rfl
  · subst h; rw [hp]; rfl
  · subst h; rw [hsvc]; rfl
  · rw [hsvc]; rfl

theorem C5_omitted_optionals_absent_witness :
    create_shipment "12345" "PO2102" exReceiver exSender exParcels
      PyVal.pnone PyVal.pnone PyVal.pnone PyVal.pnone PyVal.pnone = .ok exShipment ∧
    ((PyVal.pnone = PyVal.pnone → exShipment.agent = none)
    ∧ (PyVal.pnone = PyVal.pnone → exShipment.orderNo = none)
    ∧ (PyVal.pnone = PyVal.pnone → exShipment.senderReference = none)
    ∧ (PyVal.pnone = PyVal.pnone → exShipment.pdfConfig = none)
    ∧ (PyVal.pnone = PyVal.pnone → exShipment.service.addons = none)
    ∧ exShipment.service.addons = (if truthy PyVal.pnone then some PyVal.pnone else none)) :=
  ⟨rfl, C5_omitted_optionals_absent "12345" "PO2102" exReceiver exSender exParcels
    PyVal.pnone PyVal.pnone PyVal.pnone PyVal.pnone PyVal.pnone exShipment rfl⟩

/-- C10: `create_shipment` distinguishes its optional arguments by
truthiness, not presence: supplied-but-falsy values give exactly the result
of the omitted-argument call, and PO2103 with an empty dict agent selects
the base receiver and yields a shipment with no agent field. -/
theorem C10_falsy_optionals_like_omitted :
    (∀ custno service_id receiver sender parcels agent order_no sender_reference
        pdf_config addons,
      truthy agent = false → truthy order_no = false → truthy sender_reference = false →
      truthy pdf_config = false → truthy addons = false →
      create_shipment custno service_id receiver sender parcels agent order_no
          sender_reference pdf_config addons
        = create_shipment custno service_id receiver sender parcels
            .pnone .pnone .pnone .pnone .pnone)
    ∧ (∀ custno receiver sender parcels sh,
      create_shipment custno "PO2103" receiver sender parcels
          (.pdict []) .pnone .pnone .pnone .pnone = .ok sh →
      sh.receiverCls = .Receiver ∧ sh.agent = none) := by
  constructor
  · intro custno service_id receiver sender parcels agent order_no sender_reference
      pdf_config addons ha ho hs hp had
    simp [create_shipment, _infer_receiver_class, _build_service,
      ha, ho, hs, hp, had, truthy_pnone]
  · intro custno receiver sender parcels sh hok
    obtain ⟨h1, -, -, h4, -⟩ := create_shipment_ok_fields hok
    exact ⟨by rw [h1]; rfl, by rw [h4]; rfl⟩

theorem C10_falsy_optionals_like_omitted_witness :
    (truthy (PyVal.pdict []) = false ∧ truthy (PyVal.pstr "") = false ∧
      truthy (PyVal.plist []) = false) ∧
    create_shipment "12345" "PO2103" exReceiver exSender exParcels
        (PyVal.pdict []) (PyVal.pstr "") (PyVal.pstr "") (PyVal.pdict []) (PyVal.plist [])
      = create_shipment "12345" "PO2103" exReceiver exSender exParcels
          PyVal.pnone PyVal.pnone PyVal.pnone PyVal.pnone PyVal.pnone ∧
    (exShipment2103.receiverCls = .Receiver ∧ exShipment2103.agent = none) :=
  ⟨⟨rfl, rfl, rfl⟩,
   C10_falsy_optionals_like_omitted.1 "12345" "PO2103" exReceiver exSender exParcels
     (PyVal.pdict []) (PyVal.pstr "") (PyVal.pstr "") (PyVal.pdict []) (PyVal.plist [])
     rfl rfl rfl rfl rfl,
   C10_falsy_optionals_like_omitted.2 "12345" exReceiver exSender exParcels
     exShipment2103 rfl⟩

/-- C4: the strictZipCode query parameter is the literal string "true" when
strict_zip_code is truthy, and is omitted entirely (never encoded as
"false") when strict_zip_code is falsy or absent. -/
theorem C4_strict_zip_code_encoding (args : GetLocationsArgs) (q : Query)
    (hq : build_query args = .ok q) :
    (truthy args.strict_zip_code = true →
      q.lookup "strictZipCode" = some (.pstr "true"))
    ∧ (truthy args.strict_zip_code = false →
      ∀ v, ("strictZipCode", v) ∉ q) := by
  have hl := @build_query_lookup args q hq "strictZipCode"
    (if truthy args.strict_zip_code then .pstr "true" else .pnone) rfl
  constructor
  · intro ht
    rw [ht] at hl
    simpa using hl
  · intro hf
    rw [hf] at hl
    simp only [Bool.false_eq_true, if_false, isNone, if_pos] at hl
    exact fun v => not_mem_of_lookup_eq_none hl v

def C4args : GetLocationsArgs := { strict_zip_code := .pbool true }

theorem C4_strict_zip_code_encoding_witness :
    build_query C4args = .ok [("strictZipCode", PyVal.pstr "true")] ∧
    ((truthy C4args.strict_zip_code = true →
      ([("strictZipCode", PyVal.pstr "true")] : Query).lookup "strictZipCode"
        = some (PyVal.pstr "true"))
    ∧ (truthy C4args.strict_zip_code = false →
      ∀ v, ("strictZipCode", v) ∉ ([("strictZipCode", PyVal.pstr "true")] : Query))) :=
  ⟨rfl, C4_strict_zip_code_encoding C4args [("strictZipCode", PyVal.pstr "true")] rfl⟩

/-- C6: a 4-element bounding box expands into the four discrete query
parameters topLeftLat, topLeftLng, bottomRightLat, bottomRightLng carrying
its elements in order, and the query carries no bounding_box or boundingBox
parameter of its own. -/
theorem C6_bounding_box_expansion (args : GetLocationsArgs) (a b c d : PyVal)
    (hbox : args.bounding_box = .plist [a, b, c, d])
    (ha : isNone a = false) (hb : isNone b = false)
    (hc : isNone c = false) (hd : isNone d = false)
    (q : Query) (hq : build_query args = .ok q) :
    (("topLeftLat", a) ∈ q ∧ ("topLeftLng", b) ∈ q ∧
     ("bottomRightLat", c) ∈ q ∧ ("bottomRightLng", d) ∈ q)
    ∧ (∀ v, ("bounding_box", v) ∉ q ∧ ("boundingBox", v) ∉ q) := by
  obtain ⟨bb, hbb, hq', -⟩ := build_query_ok_cases hq
  rw [hbox] at hbb
  have hbb4 : bb = [("topLeftLat", a), ("topLeftLng", b),
      ("bottomRightLat", c), ("bottomRightLng", d)] := by
    have hr : bb_params (.plist [a, b, c, d]) = .ok [("topLeftLat", a), ("topLeftLng", b),
        ("bottomRightLat", c), ("bottomRightLng", d)] := rfl
    exact (Except.ok.inj (hr.symm.trans hbb)).symm
  rw [hbb4] at hq'
  subst hq'
  constructor
  · refine ⟨?_, ?_, ?_, ?_⟩ <;>
      exact List.mem_filter.mpr
        ⟨List.mem_append_right _ (by simp), by simp [ha, hb, hc, hd]⟩
  · intro v
    constructor <;> intro hmem
    · have hk := keys_dropNone_subset _ (List.mem_map_of_mem Prod.fst hmem)
      rw [List.map_append, keys_base_params] at hk
      simp only [List.map_cons, List.map_nil] at hk
      exact absurd hk (by decide)
    · have hk := keys_dropNone_subset _ (List.mem_map_of_mem Prod.fst hmem)
      rw [List.map_append, keys_base_params] at hk
      simp only [List.map_cons, List.map_nil] at hk
      exact absurd hk (by decide)

def C6args : GetLocationsArgs :=
  { bounding_box := .plist [.pint 1, .pint 2, .pint 3, .pint 4] }

def C6query : Query :=
  [("topLeftLat", .pint 1), ("topLeftLng", .pint 2),
   ("bottomRightLat", .pint 3), ("bottomRightLng", .pint 4)]

theorem C6_bounding_box_expansion_witness :
    C6args.bounding_box = .plist [.pint 1, .pint 2, .pint 3, .pint 4] ∧
    build_query C6args = .ok C6query ∧
    ((("topLeftLat", PyVal.pint 1) ∈ C6query ∧ ("topLeftLng", PyVal.pint 2) ∈ C6query ∧
      ("bottomRightLat", PyVal.pint 3) ∈ C6query ∧ ("bottomRightLng", PyVal.pint 4) ∈ C6query)
    ∧ (∀ v, ("bounding_box", v) ∉ C6query ∧ ("boundingBox", v) ∉ C6query)) :=
  ⟨rfl, rfl, C6_bounding_box_expansion C6args (.pint 1) (.pint 2) (.pint 3) (.pint 4)
    rfl rfl rfl rfl rfl C6query rfl⟩

/-- C7: each named query parameter is omitted exactly when its value is None
after the strictZipCode and bounding-box expansions — falsy but present
values are still sent — and the all-omitted call sends zero parameters. -/
theorem C7_omit_only_none (args : GetLocationsArgs) (q : Query)
    (hq : build_query args = .ok q) :
    (q.lookup "countryCode" = (if isNone args.country_code then none else some args.country_code))
    ∧ (q.lookup "top" = (if isNone args.top then none else some args.top))
    ∧ (q.lookup "types" = (if isNone args.types then none else some args.types))
    ∧ (q.lookup "lat" = (if isNone args.lattitude then none else some args.lattitude))
    ∧ (q.lookup "lng" = (if isNone args.longitude then none else some args.longitude))
    ∧ (q.lookup "distance" = (if isNone args.distance then none else some args.distance))
    ∧ (q.lookup "zipCode" = (if isNone args.zipcode then none else some args.zipcode))
    ∧ (q.lookup "locationZipCode"
        = (if isNone args.location_zipcode then none else some args.location_zipcode))
    ∧ (q.lookup "city" = (if isNone args.city then none else some args.city))
    ∧ (q.lookup "municipality"
        = (if isNone args.municipality then none else some args.municipality))
    ∧ (q.lookup "pupCode" = (if isNone args.pup_code then none else some args.pup_code))
    ∧ (q.lookup "partnerType"
        = (if isNone args.partner_type then none else some args.partner_type))
    ∧ build_query {} = .ok [] :=
  ⟨@build_query_lookup args q hq "countryCode" args.country_code rfl,
   @build_query_lookup args q hq "top" args.top rfl,
   @build_query_lookup args q hq "types" args.types rfl,
   @build_query_lookup args q hq "lat" args.lattitude rfl,
   @build_query_lookup args q hq "lng" args.longitude rfl,
   @build_query_lookup args q hq "distance" args.distance rfl,
   @build_query_lookup args q hq "zipCode" args.zipcode rfl,
   @build_query_lookup args q hq "locationZipCode" args.location_zipcode rfl,
   @build_query_lookup args q hq "city" args.city rfl,
   @build_query_lookup args q hq "municipality" args.municipality rfl,
   @build_query_lookup args q hq "pupCode" args.pup_code rfl,
   @build_query_lookup args q hq "partnerType" args.partner_type rfl,
   rfl⟩

def C7args : GetLocationsArgs := { top := .pint 0, zipcode := .pstr "" }

def C7query : Query := [("top", .pint 0), ("zipCode", .pstr "")]

theorem C7_omit_only_none_witness :
    build_query C7args = .ok C7query ∧
    ((C7query.lookup "countryCode"
        = (if isNone C7args.country_code then none else some C7args.country_code))
    ∧ (C7query.lookup "top" = (if isNone C7args.top then none else some C7args.top))
    ∧ (C7query.lookup "types" = (if isNone C7args.types then none else some C7args.types))
    ∧ (C7query.lookup "lat" = (if isNone C7args.lattitude then none else some C7args.lattitude))
    ∧ (C7query.lookup "lng" = (if isNone C7args.longitude then none else some C7args.longitude))
    ∧ (C7query.lookup "distance"
        = (if isNone C7args.distance then none else some C7args.distance))
    ∧ (C7query.lookup "zipCode" = (if isNone C7args.zipcode then none else some C7args.zipcode))
    ∧ (C7query.lookup "locationZipCode"
        = (if isNone C7args.location_zipcode then none else some C7args.location_zipcode))
    ∧ (C7query.lookup "city" = (if isNone C7args.city then none else some C7args.city))
    ∧ (C7query.lookup "municipality"
        = (if isNone C7args.municipality then none else some C7args.municipality))
    ∧ (C7query.lookup "pupCode"
        = (if isNone C7args.pup_code then none else some C7args.pup_code))
    ∧ (C7query.lookup "partnerType"
        = (if isNone C7args.partner_type then none else some C7args.partner_type))
    ∧ build_query {} = .ok []) :=
  ⟨rfl, C7_omit_only_none C7args C7query rfl⟩

/-- C8: whenever the location endpoint answers with a non-2xx status,
get_locations propagates the transport error carrying that status and
produces no value. -/
theorem C8_non2xx_raises (args : GetLocationsArgs) (q : Query)
    (http : String → Query → HttpResponse)
    (hq : build_query args = .ok q)
    (hst : ¬(200 ≤ (http LOCATION_SERVICE_API_ENDPOINT q).status ∧
             (http LOCATION_SERVICE_API_ENDPOINT q).status < 300)) :
    get_locations args http
      = .error (.httpError (http LOCATION_SERVICE_API_ENDPOINT q).status) := by
  simp only [get_locations, hq, raise_for_status]
  rw [if_neg hst]

def C8http : String → Query → HttpResponse :=
  fun _ _ => { status := 500, body := .pnone }

theorem C8_non2xx_raises_witness :
    build_query {} = .ok [] ∧
    ¬(200 ≤ (C8http LOCATION_SERVICE_API_ENDPOINT []).status ∧
      (C8http LOCATION_SERVICE_API_ENDPOINT []).status < 300) ∧
    get_locations {} C8http
      = .error (.httpError (C8http LOCATION_SERVICE_API_ENDPOINT []).status) :=
  ⟨rfl, by decide, C8_non2xx_raises {} [] C8http rfl (by decide)⟩

theorem get_locations_congr {args1 args2 : GetLocationsArgs}
    (http : String → Query → HttpResponse)
    (h : build_query args1 = build_query args2) :
    get_locations args1 http = get_locations args2 http := by
  unfold get_locations
  rw [h]

/-- C9: get_locations reads exactly the first four elements of a supplied
bounding box: a non-None list with fewer than four elements makes the call
fail with the index error (not a validation error) for every transport, so
before any request is issued; elements past the fourth never affect the
call. -/
theorem C9_bounding_box_indexing :
    (∀ args xs, args.bounding_box = .plist xs → xs.length < 4 →
      ∀ http, get_locations args http = .error .indexError)
    ∧ (∀ args xs http, args.bounding_box = .plist xs → 4 ≤ xs.length →
      get_locations args http
        = get_locations { args with bounding_box := .plist (xs.take 4) } http) := by
  constructor
  · intro args xs hbox hlen http
    have hq : build_query args = .error Err.indexError := by
      unfold build_query
      rw [hbox]
      rcases xs with _ | ⟨a, _ | ⟨b, _ | ⟨c, _ | ⟨d, t⟩⟩⟩⟩
      · rfl
      · rfl
      · rfl
      · rfl
      · simp only [List.length_cons] at hlen; omega
    simp only [get_locations, hq]
  · intro args xs http hbox hlen
    rcases xs with _ | ⟨a, _ | ⟨b, _ | ⟨c, _ | ⟨d, t⟩⟩⟩⟩
    · simp only [List.length_nil] at hlen; omega
    · simp only [List.length_cons, List.length_nil] at hlen; omega
    · simp only [List.length_cons, List.length_nil] at hlen; omega
    · simp only [List.length_cons, List.length_nil] at hlen; omega
    · refine get_locations_congr http ?_
      unfold build_query
      rw [hbox]
      rfl

def C9args : GetLocationsArgs := { bounding_box := .plist [.pint 1] }

def C9args5 : GetLocationsArgs :=
  { bounding_box := .plist [.pint 1, .pint 2, .pint 3, .pint 4, .pint 5] }

theorem C9_bounding_box_indexing_witness :
    (C9args.bounding_box = .plist [.pint 1] ∧ ([PyVal.pint 1] : List PyVal).length < 4 ∧
      get_locations C9args C8http = .error .indexError) ∧
    (C9args5.bounding_box = .plist [.pint 1, .pint 2, .pint 3, .pint 4, .pint 5] ∧
      get_locations C9args5 C8http
        = get_locations { C9args5 with
            bounding_box := PyVal.plist
              (List.take 4 [PyVal.pint 1, PyVal.pint 2, PyVal.pint 3, PyVal.pint 4, PyVal.pint 5]) }
            C8http) :=
  ⟨⟨rfl, by decide,
    C9_bounding_box_indexing.1 C9args [PyVal.pint 1] rfl (by decide) C8http⟩,
   ⟨rfl,
    C9_bounding_box_indexing.2 C9args5 [PyVal.pint 1, .pint 2, .pint 3, .pint 4, .pint 5]
      C8http rfl (by decide)⟩⟩
